import Mathlib

/-
Verification of the vikit video-composition SDK against its natural-language
specification.

The development shallowly embeds the repository's Python sources:
  * vikit/common/file_tools.py   — path classification and file download
  * vikit/video/prompt_based_video.py — prompt-driven composite construction,
    settings preparation, handler-chain assembly
  * the CompositeVideo / Video core (composite_video.py, video.py) is not part
    of the repository snapshot; the definitions that stand for it are modelled
    from the specification's words and say so in their doc comments.

Python runtime values that matter to the claims (tuples vs dicts, None,
truthiness, subscripting errors) are embedded explicitly so that bugs of that
kind are visible in the model. The host platform is POSIX (Linux), so the
POSIX branch of sys.platform-dependent code is the one embedded.
-/

namespace Vikit

/-- A Python runtime value, as far as file_tools.py manipulates them: None,
strings, dicts with string keys, and tuples. -/
inductive PyVal where
  | vNone : PyVal
  | str (s : String) : PyVal
  | dict (entries : List (String × PyVal)) : PyVal
  | tup (items : List PyVal) : PyVal

/-- The Python exceptions the embedded code can raise. -/
inductive PyErr where
  | typeError
  | valueError
  | keyError
  | fileNotFoundError
  deriving DecidableEq

/-- Python `v[key]` with a string key: a dict looks the key up, every other
value raises TypeError (in particular a tuple subscripted by a string). -/
def pySubscript (v : PyVal) (key : String) : Except PyErr PyVal :=
  match v with
  | PyVal.dict entries =>
    match entries.lookup key with
    | some x => Except.ok x
    | none => Except.error PyErr.keyError
  | _ => Except.error PyErr.typeError

/-- Python tuple unpacking `a, b = v` for a two-tuple. -/
def pyUnpack2 (v : PyVal) : Except PyErr (PyVal × PyVal) :=
  match v with
  | PyVal.tup [a, b] => Except.ok (a, b)
  | PyVal.tup _ => Except.error PyErr.valueError
  | _ => Except.error PyErr.typeError

/-- Python truthiness of the values get_path_type returns in error position:
None is falsy, a string is truthy when non-empty. -/
def pyTruthy : PyVal → Bool
  | PyVal.vNone => false
  | PyVal.str s => !s.isEmpty
  | PyVal.dict entries => !entries.isEmpty
  | PyVal.tup items => !items.isEmpty

/-- Whether a PyVal is the string `s` (Python `v == "s"`; false for non-strings). -/
def pyEqStr (v : PyVal) (s : String) : Bool :=
  match v with
  | PyVal.str t => t == s
  | _ => false

/-- The environment file_tools.py runs against: the local filesystem (an
association list path to file content; `os.path.exists` is membership),
the OS filename length limit (`os.pathconf` / the 255 default), and HTTP GET
(`some body` models a 200 response with that body, `none` any other status). -/
structure FTEnv where
  fs : List (String × String)
  maxName : Nat
  http : String → Option String

/-- os.path.exists over the modelled filesystem. -/
def pathExists (env : FTEnv) (p : String) : Bool :=
  (env.fs.lookup p).isSome

/-- Python `s.strip(" .")`: drop leading and trailing spaces and dots. -/
def pyStripSpaceDot (s : String) : String :=
  let isCut : Char → Bool := fun c => c == ' ' || c == '.'
  String.mk (((s.toList.dropWhile isCut).reverse.dropWhile isCut).reverse)

/-- Python `s.startswith(pre)`. (Core's String.startsWith is well-founded
recursion, which would block kernel evaluation, so it is restated over the
character lists.) -/
def pyStartsWith (s pre : String) : Bool :=
  pre.toList.isPrefixOf s.toList

/-- os.path.basename on POSIX: the part of the path after the last slash. -/
def basename (p : String) : String :=
  String.mk ((p.toList.reverse.takeWhile (fun c => !(c == '/'))).reverse)

/-- is_valid_filename from file_tools.py, POSIX branch (the host is Linux, so
`sys.platform.startswith("win")` is false): the name is invalid when it
contains a slash, has leading or trailing spaces or dots, or is longer than
the OS filename limit. -/
def is_valid_filename (maxName : Nat) (filename : String) : Bool :=
  if filename.toList.any (fun c => c == '/') then false
  else if !(pyStripSpaceDot filename == filename) then false
  else if filename.length > maxName then false
  else true

/-- A character urllib.parse accepts inside a URL scheme after the first. -/
def schemeChar (c : Char) : Bool :=
  c.isAlphanum || c == '+' || c == '-' || c == '.'

/-- urllib.parse.urlparse(path).scheme: the lowercased text before the first
colon, when it starts with a letter and holds only scheme characters;
otherwise the empty string. -/
def urlScheme (s : String) : String :=
  let cs := s.toList
  let pre := cs.takeWhile (fun c => !(c == ':'))
  if pre.length == cs.length then ""
  else
    match pre with
    | [] => ""
    | c :: rest =>
      if c.isAlpha && (c :: rest).all schemeChar then
        String.mk ((c :: rest).map Char.toLower)
      else ""

/-- get_path_type from file_tools.py. Every `return` of the Python function
returns a two-tuple `(descriptor, error)`; note that the final default return
is `result, error` where `result` is itself the two-tuple
`({"type": "undefined", "path": "undefined"}, "undefined path")`, so in that
branch the first component of the returned pair is a tuple, not a dict. -/
def get_path_type (env : FTEnv) (path : Option String) : PyVal :=
  match path with
  | none =>
    PyVal.tup [PyVal.dict [("type", PyVal.str "none"), ("path", PyVal.vNone)],
      PyVal.str "The path is None"]
  | some p =>
    if p.length > env.maxName then
      PyVal.tup [PyVal.dict [("type", PyVal.str "error"), ("path", PyVal.str "")],
        PyVal.str "The file name is too long for local filesystem storage"]
    else if pathExists env p || is_valid_filename env.maxName (basename p) then
      if pyStartsWith p "file://" then
        PyVal.tup [PyVal.dict [("type", PyVal.str "local_url_format"), ("path", PyVal.str p)],
          PyVal.vNone]
      else
        PyVal.tup [PyVal.dict [("type", PyVal.str "local"), ("path", PyVal.str p)],
          PyVal.vNone]
    else if ["http", "https", "s3", "gs"].contains (urlScheme p) then
      PyVal.tup [PyVal.dict [("type", PyVal.str (urlScheme p)), ("path", PyVal.str p)],
        PyVal.vNone]
    else
      PyVal.tup [PyVal.tup [PyVal.dict [("type", PyVal.str "undefined"),
          ("path", PyVal.str "undefined")], PyVal.str "undefined path"],
        PyVal.vNone]

/-- is_valid_path from file_tools.py: it binds the *pair* returned by
get_path_type and subscripts it with the string "type". -/
def is_valid_path (env : FTEnv) (path : Option String) : Except PyErr Bool :=
  match pySubscript (get_path_type env path) "type" with
  | Except.error e => Except.error e
  | Except.ok t =>
    if pyEqStr t "error" || pyEqStr t "none" then Except.ok false else Except.ok true

/-- Write a file: the new content shadows any previous content at that path. -/
def fsInsert (fs : List (String × String)) (p content : String) : List (String × String) :=
  (p, content) :: fs.filter (fun q => !(q.fst == p))

/-- download_file from file_tools.py. Raises ValueError on an absent/empty
url; classifies the url with get_path_type; on type "http"/"https" it streams
the response body into `aiofiles.open(url, "wb")` — the file named by the
*url*, not by `local_path` — and returns `local_path` (a non-200 response
falls through and returns None); on type "local" / "local_url_format" it
copies the source file to `local_path`; any other error-free type falls
through and returns None; a truthy error raises ValueError. The returned
pair is (filesystem after the call, Python return value). -/
def download_file (env : FTEnv) (url : Option String) (local_path : String) :
    Except PyErr (List (String × String) × PyVal) :=
  match url with
  | none => Except.error PyErr.valueError
  | some u =>
    if u.isEmpty then Except.error PyErr.valueError
    else
      match pyUnpack2 (get_path_type env (some u)) with
      | Except.error e => Except.error e
      | Except.ok (path_desc, err) =>
        if !(pyTruthy err) then
          match pySubscript path_desc "type" with
          | Except.error e => Except.error e
          | Except.ok t =>
            if pyEqStr t "http" || pyEqStr t "https" then
              match env.http u with
              | some body => Except.ok (fsInsert env.fs u body, PyVal.str local_path)
              | none => Except.ok (env.fs, PyVal.vNone)
            else if pyEqStr t "local" then
              match env.fs.lookup u with
              | some content => Except.ok (fsInsert env.fs local_path content, PyVal.str local_path)
              | none => Except.error PyErr.fileNotFoundError
            else if pyEqStr t "local_url_format" then
              let u2 := u.replace "file://" ""
              match env.fs.lookup u2 with
              | some content => Except.ok (fsInsert env.fs local_path content, PyVal.str local_path)
              | none => Except.error PyErr.fileNotFoundError
            else Except.ok (env.fs, PyVal.vNone)
        else Except.error PyErr.valueError

/-- A small concrete environment for evaluating the file tools: one local
media file, the usual 255-character name limit, and an HTTP server that
answers every GET with status 200 and body "WEBDATA". -/
def ftEnvDemo : FTEnv :=
  FTEnv.mk [("medias/cat.mp4", "CATDATA")] 255 (fun _ => some "WEBDATA")

/-- A subtitle of a prompt (pysrt.SubRipItem as the SDK reads it: its text and
its duration in seconds). -/
structure MSubtitle where
  text : String
  duration : ℚ
  deriving DecidableEq

/-- A Prompt as the video layer reads it: the subtitle list driving
composition and the overall recording duration driving the ratio. -/
structure MPrompt where
  subtitles : List MSubtitle
  duration : ℚ
  deriving DecidableEq

/-- VideoBuildSettings, restricted to the fields the claims under proof read:
the optional prompt and the test_mode flag (music context, expected_length and
the other flags are never read by the embedded code paths). -/
structure VideoBuildSettings where
  prompt : Option MPrompt
  test_mode : Bool
  deriving DecidableEq

/-- The SDK's error taxonomy as far as the claims need it. -/
inductive VikitError where
  | invalidArgument
  | invalidConfiguration
  deriving DecidableEq

/-- A video node of the composition tree: a leaf (RawTextBasedVideo /
ImportedVideo, with the settings it was prepared with and its media if it
already has one), a transition between two nodes (SeineTransition), or a
composite holding an ordered child list and its own media once built. -/
inductive VNode where
  | leaf (text : String) (settings : VideoBuildSettings) (media : Option String)
  | transitionV (source target : VNode)
  | compositeV (children : List VNode) (media : Option String)

/-- Modelled from the spec: an "empty CompositeVideo (no children, not yet
built)" — zero children and no media yet. (composite_video.py is not in the
repository snapshot.) -/
def is_empty_composite : VNode → Bool
  | VNode.compositeV [] none => true
  | _ => false

/-- Modelled from the spec: CompositeVideo.append_video. Appending an absent
child fails with an invalid-argument error; an empty, not-yet-built composite
is silently filtered out of the sequence rather than stored; any other child
is appended at the end of the ordered child list. Returns the updated child
list of the receiver (the receiver itself is returned in the source for
fluent chaining). -/
def append_video (video_list : List VNode) (video : Option VNode) :
    Except VikitError (List VNode) :=
  match video with
  | none => Except.error VikitError.invalidArgument
  | some v =>
    if is_empty_composite v then Except.ok video_list
    else Except.ok (video_list ++ [v])

/-- append_video on a present child, as compose calls it (the error branch is
unreachable there). -/
def append_video_run (video_list : List VNode) (v : VNode) : List VNode :=
  if is_empty_composite v then video_list else video_list ++ [v]

/-- The external prompt engineering collaborator (PromptFactory): for each
subtitle it re-engineers the subtitle text into an enhanced prompt, once with
generate_from_llm_keyword and once with generate_from_llm_prompt. -/
structure PromptEnv where
  kwEnhanced : MSubtitle → MPrompt
  txtEnhanced : MSubtitle → MPrompt

/-- PromptBasedVideo._prepare_basic_building_block followed by the three
append_video calls of compose: one keyword-derived RawTextBasedVideo, the
SeineTransition bridging the two, and one prompt-derived RawTextBasedVideo,
in that order, inside a fresh CompositeVideo. Each leaf is prepared with its
own freshly constructed VideoBuildSettings holding the re-engineered prompt
and the parent's test_mode — not with the parent's settings object. -/
def mk_building_block (env : PromptEnv) (build_stgs : VideoBuildSettings)
    (sub : MSubtitle) : VNode :=
  let keyword_based_vid :=
    VNode.leaf sub.text (VideoBuildSettings.mk (some (env.kwEnhanced sub)) build_stgs.test_mode) none
  let prompt_based_vid :=
    VNode.leaf sub.text (VideoBuildSettings.mk (some (env.txtEnhanced sub)) build_stgs.test_mode) none
  VNode.compositeV
    [keyword_based_vid, VNode.transitionV keyword_based_vid prompt_based_vid, prompt_based_vid]
    none

/-- PromptBasedVideo.compose: for every subtitle of the prompt, in subtitle
order, build the basic building block and append it to the root's child
list with append_video. -/
def compose (env : PromptEnv) (build_settings : VideoBuildSettings)
    (prompt : MPrompt) (video_list : List VNode) : List VNode :=
  prompt.subtitles.foldl
    (fun acc sub => append_video_run acc (mk_building_block env build_settings sub))
    video_list

/-- PromptBasedVideo.prepare_build's settings handling. In the source the
parameter default `build_settings=VideoBuildSettings()` is a single Python
object created once at function definition time and shared by every
no-argument call; `arg = none` models a call that omits the argument and so
receives that shared object, whose current state is `defaultSettings`. When
the received settings has no prompt, the node's own prompt is assigned into
it (mutating the caller's object, or the shared default). The result is
(the settings object's state after the call, the shared default's state
after the call); the ValueError branch is the source's second guard. -/
def prepare_build (self_prompt : MPrompt) (arg : Option VideoBuildSettings)
    (defaultSettings : VideoBuildSettings) :
    Except PyErr (VideoBuildSettings × VideoBuildSettings) :=
  let bs0 := match arg with | some a => a | none => defaultSettings
  let bs1 :=
    if bs0.prompt.isNone then VideoBuildSettings.mk (some self_prompt) bs0.test_mode
    else bs0
  if bs1.prompt.isNone then Except.error PyErr.valueError
  else
    Except.ok (bs1, match arg with | some _ => defaultSettings | none => bs1)

/-- A child video as the handler-chain assembly reads it: only its
_needs_reencoding flag. -/
structure ChildVideo where
  needs_reencoding : Bool

/-- The post-build handlers the claims mention. -/
inductive VideoBuildingHandler where
  | videoReencodingHandler
  deriving DecidableEq

/-- PromptBasedVideo.get_and_initialize_video_handler_chain: a
VideoReencodingHandler is appended exactly when at least one video of the
video list is flagged as needing re-encoding; otherwise the chain stays
empty. The build_settings argument is not read. -/
def get_and_initialize_video_handler_chain (video_list : List ChildVideo)
    (build_settings : VideoBuildSettings) : List VideoBuildingHandler :=
  let _ := build_settings
  if 1 ≤ (video_list.filter (fun video => video.needs_reencoding)).length then
    [VideoBuildingHandler.videoReencodingHandler]
  else []

/-- The build lifecycle states of a VideoNode. Modelled from the spec:
Created → PreBuildHooksRun → Prepared → Built, with Failed reachable from any
state on an unrecovered error. (The only post-build hook in the snapshot,
PromptBasedVideo.run_post_build_actions, is a no-op, so the post-build phase
is folded into reaching Built.) -/
inductive VideoState where
  | created
  | preBuildHooksRun
  | prepared
  | built
  | failed
  deriving DecidableEq

/-- The per-node mutable state the C1 invariant speaks about: the lifecycle
state and the media_url. -/
structure NodeState where
  lifecycle_state : VideoState
  media_url : Option String
  deriving DecidableEq

/-- Modelled from the spec: one lifecycle transition of a node. media_url is
populated exactly by a successful build; a failure from any state cleans up
and exposes no partial media ("no partial media is exposed as the node's
media_url"; "partial temporary artifacts are cleaned up on failure"). -/
inductive LifecycleStep : NodeState → NodeState → Prop where
  | runPreBuildHooks :
      LifecycleStep (NodeState.mk VideoState.created none)
        (NodeState.mk VideoState.preBuildHooksRun none)
  | prepareAdvance :
      LifecycleStep (NodeState.mk VideoState.preBuildHooksRun none)
        (NodeState.mk VideoState.prepared none)
  | buildSuccess (url : String) :
      LifecycleStep (NodeState.mk VideoState.prepared none)
        (NodeState.mk VideoState.built (some url))
  | buildFailure (s : NodeState) :
      LifecycleStep s (NodeState.mk VideoState.failed none)

/-- The node states the lifecycle can ever be in: a node starts fresh in
Created with no media, or — for an ImportedVideo wrapping a pre-existing
media file, whose media_url the repository's tests assert right after
construction — already built with that file as media; then it moves by
lifecycle steps. -/
inductive ReachableState : NodeState → Prop where
  | start : ReachableState (NodeState.mk VideoState.created none)
  | imported (path : String) : ReachableState (NodeState.mk VideoState.built (some path))
  | step {s t : NodeState} : ReachableState s → LifecycleStep s t → ReachableState t

/-- Modelled from the spec: a whole build call on a node, each phase of which
can fail — prepare, the generation/render step (`generated` is the external
call's result: the produced media, or none on failure), and the handler
chain. A build either ends Built with the media populated or Failed with no
media exposed. -/
def build_node (prepare_ok : Bool) (generated : Option String) (handlers_ok : Bool) : NodeState :=
  if prepare_ok then
    match generated with
    | some url =>
      if handlers_ok then NodeState.mk VideoState.built (some url)
      else NodeState.mk VideoState.failed none
    | none => NodeState.mk VideoState.failed none
  else NodeState.mk VideoState.failed none

/-- Rendered media, as a list of atomic segments: the media toolkit's concat
preserves input order exactly, so concatenation is list append. A leaf
contributes its imported file or its generated clip; a transition contributes
the one interstitial clip synthesized from its built source and target. -/
inductive Segment where
  | fileSeg (path : String)
  | genSeg (text : String)
  | transSeg (src tgt : List Segment)

mutual
/-- Modelled from the spec: the depth-first, left-to-right build of a node's
rendered output. A composite's output is the concatenation of its children's
outputs in child-list (append) order, each child fully built before the
parent concatenates. -/
def build_output : VNode → List Segment
  | VNode.leaf _ _ (some m) => [Segment.fileSeg m]
  | VNode.leaf text _ none => [Segment.genSeg text]
  | VNode.transitionV s t => [Segment.transSeg (build_output s) (build_output t)]
  | VNode.compositeV children _ => build_output_list children

/-- The children's outputs, concatenated left to right. -/
def build_output_list : List VNode → List Segment
  | [] => []
  | v :: rest => build_output v ++ build_output_list rest
end

/-- Modelled from the spec: sibling children may build concurrently, so their
results arrive in an arbitrary completion order, tagged with the child's
index in the child list. -/
def media_arrivals (outputs : List (List Segment)) (completion_order : List Nat) :
    List (Nat × List Segment) :=
  completion_order.map (fun i => (i, outputs.getD i []))

/-- The arrived result for child index i (the join waits for all children, so
every index is found exactly once when the completion order is a permutation
of the indices). -/
def arrival_result (i : Nat) (arrivals : List (Nat × List Segment)) : List Segment :=
  match arrivals.find? (fun q => q.fst == i) with
  | some q => q.snd
  | none => []

/-- Modelled from the spec: the parent's concatenation step after the
concurrent join — the children's arrived outputs assembled by child index,
in child-list order, regardless of the order in which they completed. -/
def build_composite_concurrent (children : List VNode) (completion_order : List Nat) :
    List Segment :=
  ((List.range children.length).map
    (fun i => arrival_result i (media_arrivals (children.map build_output) completion_order))).flatten

/-- Modelled from the spec: CompositeVideo._get_ratio_to_multiply_animations.
The ratio is own_duration / build_settings.prompt.duration; an absent prompt
or a zero prompt duration fails with an invalid-configuration error (the
guard is what makes a division fault impossible: the division is only ever
taken with a non-zero divisor). -/
def get_ratio_to_multiply_animations (own_duration : ℚ)
    (build_settings : VideoBuildSettings) : Except VikitError ℚ :=
  match build_settings.prompt with
  | none => Except.error VikitError.invalidConfiguration
  | some p =>
    if p.duration = 0 then Except.error VikitError.invalidConfiguration
    else Except.ok (own_duration / p.duration)

end Vikit

namespace Vikit

/-- Helper: a Boolean filter keeps at least one element exactly when some
element of the list satisfies the predicate. -/
theorem one_le_length_filter {α : Type} (p : α → Bool) (l : List α) :
    1 ≤ (l.filter p).length ↔ ∃ v ∈ l, p v = true := by
  induction l with
  | nil => simp
  | cons a rest ih =>
    by_cases h : p a = true
    · simp [List.filter_cons, h]
    · simp [List.filter_cons, h, ih]

/-- Helper: every return of get_path_type is a Python two-tuple. -/
theorem get_path_type_is_pair (env : FTEnv) (path : Option String) :
    ∃ a b, get_path_type env path = PyVal.tup [a, b] := by
  cases path with
  | none => exact ⟨_, _, rfl⟩
  | some p =>
    unfold get_path_type
    repeat' split
    all_goals exact ⟨_, _, rfl⟩

/-- Helper: the children's outputs concatenated left to right equal the
flattened map of build_output. -/
theorem build_output_list_eq (l : List VNode) :
    build_output_list l = (l.map build_output).flatten := by
  induction l with
  | nil => rfl
  | cons v rest ih => simp [build_output_list, build_output, ih]

/-- Helper: when index i arrived at all, its arrival carries exactly output i. -/
theorem arrival_result_media_arrivals (outputs : List (List Segment))
    (order : List Nat) (i : Nat) (h : i ∈ order) :
    arrival_result i (media_arrivals outputs order) = outputs.getD i [] := by
  induction order with
  | nil => cases h
  | cons j rest ih =>
    rcases List.mem_cons.mp h with rfl | hi
    · simp [media_arrivals, arrival_result]
    · by_cases hji : j = i
      · subst hji; simp [media_arrivals, arrival_result]
      · have hb : (j == i) = false := by simp [hji]
        simp only [media_arrivals, List.map_cons, arrival_result, List.find?_cons, hb]
        exact ih hi

/-- Helper: reading a list back off by index yields the list. -/
theorem range_map_getD {α : Type} (d : α) (l : List α) :
    (List.range l.length).map (fun i => l.getD i d) = l := by
  induction l with
  | nil => rfl
  | cons a rest ih =>
    simp [List.range_succ_eq_map, List.map_map, Function.comp_def]
    simpa using ih

end Vikit

namespace Vikit

/-- C1: media_url is non-null if and only if the node's lifecycle state is
Built, at every reachable point of the lifecycle; a successful build call
returns a node whose media_url is populated, and a failed build (any failing
phase) never leaves media_url set. -/
theorem media_url_iff_lifecycle_built :
    (∀ s, ReachableState s → (s.media_url.isSome ↔ s.lifecycle_state = VideoState.built))
    ∧ (∀ prepare_ok generated handlers_ok,
        ReachableState (build_node prepare_ok generated handlers_ok))
    ∧ (∀ url, build_node true (some url) true = NodeState.mk VideoState.built (some url))
    ∧ (∀ prepare_ok generated handlers_ok,
        (build_node prepare_ok generated handlers_ok).lifecycle_state ≠ VideoState.built →
        (build_node prepare_ok generated handlers_ok).media_url = none) := by
  have rFail : ReachableState (NodeState.mk VideoState.failed none) :=
    ReachableState.step ReachableState.start (LifecycleStep.buildFailure _)
  have rPrep : ReachableState (NodeState.mk VideoState.prepared none) :=
    ReachableState.step
      (ReachableState.step ReachableState.start LifecycleStep.runPreBuildHooks)
      LifecycleStep.prepareAdvance
  refine ⟨?_, ?_, fun url => rfl, ?_⟩
  · intro s hs
    induction hs with
    | start => simp
    | imported path => simp
    | step hs hstep ih => cases hstep <;> simp
  · intro prepare_ok generated handlers_ok
    cases prepare_ok with
    | false => exact rFail
    | true =>
      cases generated with
      | none => exact rFail
      | some url =>
        cases handlers_ok with
        | false => exact rFail
        | true => exact ReachableState.step rPrep (LifecycleStep.buildSuccess url)
  · intro prepare_ok generated handlers_ok hne
    cases prepare_ok <;> cases generated <;> cases handlers_ok <;> simp_all [build_node]

/-- C2: building a composite with children appended in a given order
concatenates the children's rendered outputs in exactly that append order —
the concurrent assembly joins by child index regardless of the completion
order of the children's external calls — and the depth-first output of a
three-child composite is child A's output, then B's, then C's. -/
theorem composite_concat_preserves_append_order (children : List VNode)
    (completion_order : List Nat)
    (h : completion_order.Perm (List.range children.length)) :
    build_composite_concurrent children completion_order
        = build_output (VNode.compositeV children none)
    ∧ ∀ a b c media, build_output (VNode.compositeV [a, b, c] media)
        = build_output a ++ build_output b ++ build_output c := by
  constructor
  · unfold build_composite_concurrent
    have hmem : ∀ i ∈ List.range children.length,
        arrival_result i (media_arrivals (children.map build_output) completion_order)
          = (children.map build_output).getD i [] := by
      intro i hi
      exact arrival_result_media_arrivals _ _ _ (h.mem_iff.mpr hi)
    rw [List.map_congr_left hmem]
    have hlen : children.length = (children.map build_output).length :=
      (List.length_map _ _).symm
    rw [hlen, range_map_getD]
    rw [show build_output (VNode.compositeV children none) = build_output_list children
      from by simp [build_output]]
    exact (build_output_list_eq children).symm
  · intro a b c media
    simp [build_output, build_output_list, List.append_assoc]

/-- C2 witness: three leaves appended in order A, B, C, whose external calls
complete in order C, A, B, still concatenate as A, B, C. -/
theorem composite_concat_preserves_append_order_witness :
    build_composite_concurrent
        [VNode.leaf "A" (VideoBuildSettings.mk none false) none,
         VNode.leaf "B" (VideoBuildSettings.mk none false) none,
         VNode.leaf "C" (VideoBuildSettings.mk none false) none] [2, 0, 1]
      = build_output (VNode.compositeV
          [VNode.leaf "A" (VideoBuildSettings.mk none false) none,
           VNode.leaf "B" (VideoBuildSettings.mk none false) none,
           VNode.leaf "C" (VideoBuildSettings.mk none false) none] none)
    ∧ ∀ a b c media, build_output (VNode.compositeV [a, b, c] media)
        = build_output a ++ build_output b ++ build_output c :=
  composite_concat_preserves_append_order _ [2, 0, 1] (by decide)

/-- C3: for a node of known native duration d and build settings whose prompt
has duration p > 0, the ratio computation returns exactly d / p, and that
ratio is strictly positive (d > 0: the duration of actual media). -/
theorem ratio_eq_own_duration_div_prompt_duration (d p_dur : ℚ)
    (subs : List MSubtitle) (tm : Bool) (hd : 0 < d) (hp : 0 < p_dur) :
    get_ratio_to_multiply_animations d
        (VideoBuildSettings.mk (some (MPrompt.mk subs p_dur)) tm)
      = Except.ok (d / p_dur)
    ∧ 0 < d / p_dur := by
  constructor
  · simp [get_ratio_to_multiply_animations, hp.ne']
  · exact div_pos hd hp

/-- C3 witness: a 6-second composite against a 12-second prompt gives the
ratio 6 / 12 = 1/2 > 0. -/
theorem ratio_eq_own_duration_div_prompt_duration_witness :
    get_ratio_to_multiply_animations 6
        (VideoBuildSettings.mk (some (MPrompt.mk [] 12)) true)
      = Except.ok (6 / 12)
    ∧ (0 : ℚ) < 6 / 12 :=
  ratio_eq_own_duration_div_prompt_duration 6 12 [] true (by norm_num) (by norm_num)

/-- C4: the ratio computation with an absent prompt, or with a prompt of zero
duration, fails with the invalid-configuration error; with a positive prompt
duration it returns the ordinary quotient, which is strictly positive — it
never divides by zero (the division is guarded) and never returns a
non-positive value. -/
theorem ratio_invalid_configuration_on_bad_prompt (d p_dur : ℚ)
    (subs : List MSubtitle) (tm : Bool) (hd : 0 < d) (hp : 0 < p_dur) :
    get_ratio_to_multiply_animations d (VideoBuildSettings.mk none tm)
      = Except.error VikitError.invalidConfiguration
    ∧ get_ratio_to_multiply_animations d
        (VideoBuildSettings.mk (some (MPrompt.mk subs 0)) tm)
      = Except.error VikitError.invalidConfiguration
    ∧ get_ratio_to_multiply_animations d
        (VideoBuildSettings.mk (some (MPrompt.mk subs p_dur)) tm)
      = Except.ok (d / p_dur)
    ∧ 0 < d / p_dur := by
  refine ⟨rfl, ?_, ?_, div_pos hd hp⟩
  · simp [get_ratio_to_multiply_animations]
  · simp [get_ratio_to_multiply_animations, hp.ne']

/-- C4 witness: duration 6 against an absent prompt and against a zero-length
prompt errors; against a 3-second prompt it returns 2 > 0. -/
theorem ratio_invalid_configuration_on_bad_prompt_witness :
    get_ratio_to_multiply_animations 6 (VideoBuildSettings.mk none false)
      = Except.error VikitError.invalidConfiguration
    ∧ get_ratio_to_multiply_animations 6
        (VideoBuildSettings.mk (some (MPrompt.mk [] 0)) false)
      = Except.error VikitError.invalidConfiguration
    ∧ get_ratio_to_multiply_animations 6
        (VideoBuildSettings.mk (some (MPrompt.mk [] 3)) false)
      = Except.ok (6 / 3)
    ∧ (0 : ℚ) < 6 / 3 :=
  ratio_invalid_configuration_on_bad_prompt 6 3 [] false (by norm_num) (by norm_num)

/-- C5: appending an empty, not-yet-built composite leaves the child list
unchanged (the child is filtered, not stored); appending an absent child
fails with the invalid-argument error; appending any non-empty child stores
it at the end, so the child list never gains a no-op composite. -/
theorem append_video_filters_empty_composites (video_list : List VNode)
    (e v : VNode) (he : is_empty_composite e = true)
    (hv : is_empty_composite v = false) :
    append_video video_list (some e) = Except.ok video_list
    ∧ append_video video_list none = Except.error VikitError.invalidArgument
    ∧ append_video video_list (some v) = Except.ok (video_list ++ [v]) := by
  refine ⟨?_, rfl, ?_⟩ <;> simp [append_video, he, hv]

/-- C5 witness: appending a fresh empty CompositeVideo to a one-child
composite keeps the child count at one, while appending a leaf stores it. -/
theorem append_video_filters_empty_composites_witness :
    append_video [VNode.leaf "cat" (VideoBuildSettings.mk none false) (some "cat.mp4")]
        (some (VNode.compositeV [] none))
      = Except.ok [VNode.leaf "cat" (VideoBuildSettings.mk none false) (some "cat.mp4")]
    ∧ append_video [VNode.leaf "cat" (VideoBuildSettings.mk none false) (some "cat.mp4")] none
      = Except.error VikitError.invalidArgument
    ∧ append_video [VNode.leaf "cat" (VideoBuildSettings.mk none false) (some "cat.mp4")]
        (some (VNode.leaf "x" (VideoBuildSettings.mk none false) none))
      = Except.ok [VNode.leaf "cat" (VideoBuildSettings.mk none false) (some "cat.mp4"),
          VNode.leaf "x" (VideoBuildSettings.mk none false) none] :=
  append_video_filters_empty_composites
    [VNode.leaf "cat" (VideoBuildSettings.mk none false) (some "cat.mp4")]
    (VNode.compositeV [] none)
    (VNode.leaf "x" (VideoBuildSettings.mk none false) none) rfl rfl

/-- C6: the handler chain of a PromptBasedVideo contains the re-encoding
handler exactly when at least one child of its video list is flagged as
needing re-encoding, and is empty when no child is so flagged. -/
theorem handler_chain_reencoding_iff (video_list : List ChildVideo)
    (bs : VideoBuildSettings) :
    (VideoBuildingHandler.videoReencodingHandler
        ∈ get_and_initialize_video_handler_chain video_list bs
      ↔ ∃ v ∈ video_list, v.needs_reencoding = true)
    ∧ ((∀ v ∈ video_list, v.needs_reencoding = false) →
        get_and_initialize_video_handler_chain video_list bs = []) := by
  have key := one_le_length_filter (fun v => v.needs_reencoding) video_list
  unfold get_and_initialize_video_handler_chain
  by_cases h : 1 ≤ (video_list.filter (fun v => v.needs_reencoding)).length
  · refine ⟨?_, ?_⟩
    · rw [if_pos h, List.mem_singleton]
      exact ⟨fun _ => key.mp h, fun _ => rfl⟩
    · intro hall
      obtain ⟨v, hv, hvt⟩ := key.mp h
      rw [hall v hv] at hvt
      cases hvt
  · refine ⟨?_, fun _ => if_neg h⟩
    rw [if_neg h]
    exact iff_of_false (List.not_mem_nil _) (fun hx => h (key.mpr hx))

/-- C7: compose appends exactly one child per subtitle, in subtitle order,
each a CompositeVideo of exactly three children in order — the
keyword-derived video, the transition bridging the two, and the
prompt-derived video — and each generated leaf carries its own freshly
constructed settings (the re-engineered prompt plus the parent's test_mode),
not the parent's settings object. -/
theorem compose_appends_per_subtitle (env : PromptEnv) (bs : VideoBuildSettings)
    (prompt : MPrompt) (video_list : List VNode) :
    compose env bs prompt video_list
        = video_list ++ prompt.subtitles.map (mk_building_block env bs)
    ∧ (compose env bs prompt video_list).length
        = video_list.length + prompt.subtitles.length
    ∧ ∀ sub, mk_building_block env bs sub
        = VNode.compositeV
            [VNode.leaf sub.text
               (VideoBuildSettings.mk (some (env.kwEnhanced sub)) bs.test_mode) none,
             VNode.transitionV
               (VNode.leaf sub.text
                 (VideoBuildSettings.mk (some (env.kwEnhanced sub)) bs.test_mode) none)
               (VNode.leaf sub.text
                 (VideoBuildSettings.mk (some (env.txtEnhanced sub)) bs.test_mode) none),
             VNode.leaf sub.text
               (VideoBuildSettings.mk (some (env.txtEnhanced sub)) bs.test_mode) none]
            none := by
  have hmain : ∀ (subs : List MSubtitle) (acc : List VNode),
      subs.foldl (fun acc sub => append_video_run acc (mk_building_block env bs sub)) acc
        = acc ++ subs.map (mk_building_block env bs) := by
    intro subs
    induction subs with
    | nil => intro acc; simp
    | cons s rest ih =>
      intro acc
      have hne : is_empty_composite (mk_building_block env bs s) = false := rfl
      simp only [List.foldl_cons, List.map_cons]
      rw [show append_video_run acc (mk_building_block env bs s)
            = acc ++ [mk_building_block env bs s] from by simp [append_video_run, hne]]
      rw [ih]
      simp
  refine ⟨hmain prompt.subtitles video_list, ?_, fun sub => rfl⟩
  have h1 : compose env bs prompt video_list
      = video_list ++ prompt.subtitles.map (mk_building_block env bs) :=
    hmain prompt.subtitles video_list
  rw [h1]
  simp

/-- C8 (failing input): download_file on an http URL that reaches the http
branch writes the response body to the file named by the URL, not to
local_path (no file appears at local_path), while returning local_path; an
http URL whose basename is a valid filename is misclassified as "local" and
raises FileNotFoundError instead of downloading; an absent url raises
ValueError as documented. -/
theorem download_file_failing_input :
    download_file ftEnvDemo (some "http://example.com/clip.mp4.") "local.mp4"
        = Except.ok ([("http://example.com/clip.mp4.", "WEBDATA"),
            ("medias/cat.mp4", "CATDATA")], PyVal.str "local.mp4")
    ∧ List.lookup "local.mp4"
        [("http://example.com/clip.mp4.", "WEBDATA"), ("medias/cat.mp4", "CATDATA")] = none
    ∧ download_file ftEnvDemo (some "http://example.com/clip.mp4") "local.mp4"
        = Except.error PyErr.fileNotFoundError
    ∧ download_file ftEnvDemo none "local.mp4" = Except.error PyErr.valueError :=
  ⟨rfl, rfl, rfl, rfl⟩

/-- C9: prepare_build mutates the settings object it receives — when the
caller's settings has no prompt the node's own prompt is assigned into it —
and because the omitted-argument default is one shared object, a prompt
stored by one no-argument call is still there and observed by a later
no-argument call on a different PromptBasedVideo with a different prompt. -/
theorem prepare_build_shared_default_mutation (p1 p2 : MPrompt)
    (a d0 : VideoBuildSettings) (ha : a.prompt = none) (hd : d0.prompt = none) :
    prepare_build p1 (some a) d0
        = Except.ok (VideoBuildSettings.mk (some p1) a.test_mode, d0)
    ∧ prepare_build p1 none d0
        = Except.ok (VideoBuildSettings.mk (some p1) d0.test_mode,
            VideoBuildSettings.mk (some p1) d0.test_mode)
    ∧ prepare_build p2 none (VideoBuildSettings.mk (some p1) d0.test_mode)
        = Except.ok (VideoBuildSettings.mk (some p1) d0.test_mode,
            VideoBuildSettings.mk (some p1) d0.test_mode) := by
  refine ⟨?_, ?_, ?_⟩ <;> simp [prepare_build, ha, hd]

/-- C9 witness: a first no-argument call stores prompt one in the shared
default; a second no-argument call on a node holding prompt two still sees
prompt one. -/
theorem prepare_build_shared_default_mutation_witness :
    prepare_build (MPrompt.mk [] 1) (some (VideoBuildSettings.mk none true))
        (VideoBuildSettings.mk none false)
      = Except.ok (VideoBuildSettings.mk (some (MPrompt.mk [] 1)) true,
          VideoBuildSettings.mk none false)
    ∧ prepare_build (MPrompt.mk [] 1) none (VideoBuildSettings.mk none false)
      = Except.ok (VideoBuildSettings.mk (some (MPrompt.mk [] 1)) false,
          VideoBuildSettings.mk (some (MPrompt.mk [] 1)) false)
    ∧ prepare_build (MPrompt.mk [] 2) none
        (VideoBuildSettings.mk (some (MPrompt.mk [] 1)) false)
      = Except.ok (VideoBuildSettings.mk (some (MPrompt.mk [] 1)) false,
          VideoBuildSettings.mk (some (MPrompt.mk [] 1)) false) :=
  prepare_build_shared_default_mutation (MPrompt.mk [] 1) (MPrompt.mk [] 2)
    (VideoBuildSettings.mk none true) (VideoBuildSettings.mk none false) rfl rfl

/-- C10 (failing input): is_valid_path never returns a boolean — for every
environment and every path it raises TypeError, because get_path_type
returns a (descriptor, error) two-tuple and is_valid_path subscripts that
tuple with the string "type"; moreover on a path that hits get_path_type's
default branch the first component of the returned pair is itself a tuple,
not a record with type and path fields. -/
theorem is_valid_path_always_raises :
    (∀ env path, is_valid_path env path = Except.error PyErr.typeError)
    ∧ get_path_type ftEnvDemo (some "bad name ")
      = PyVal.tup [PyVal.tup [PyVal.dict [("type", PyVal.str "undefined"),
          ("path", PyVal.str "undefined")], PyVal.str "undefined path"], PyVal.vNone] := by
  constructor
  · intro env path
    obtain ⟨a, b, hab⟩ := get_path_type_is_pair env path
    unfold is_valid_path
    rw [hab]
    rfl
  · rfl

end Vikit
